import Mathlib

/-!
Shallow embedding of the `simple-kyc` face-recognition pipeline
(`FaceRecognition` class in the client script, plus its collaborators)
and proofs about its behaviour.

Numeric scores and distances are modelled as rationals (`ℚ`): the source
compares them only with `<` and `>`.  Maps keyed by strings are modelled
as association lists in insertion order (JavaScript `Map` iteration
order).  Asynchronous effects are modelled by passing an explicit
environment (the outcome each external call would have) and threading
state; an uncaught exception is an `Except.error`.
-/

namespace FaceRec

/-- A face descriptor vector (`detection.descriptor`). -/
abbrev Desc := List ℚ

/-- The expression-score mapping attached to a detection
(`detection.expressions`); when present it carries a `happy` score. -/
structure Expressions where
  happy : ℚ
  deriving DecidableEq, Repr

/-- One detection result handed to `updateCanvas`: a descriptor and an
optional expression mapping (`detection.expressions` may be absent,
hence the optional chaining `detection.expressions?.happy`). -/
structure Detection where
  descriptor : Desc
  expressions : Option Expressions
  deriving DecidableEq, Repr

/-- The configuration object handed to the `FaceRecognition` constructor. -/
structure Config where
  modelUri : String
  videoElementId : String
  labels : List String
  minConfidenceThreshold : ℚ
  distanceThreshold : ℚ
  smileDetectionThreshold : ℚ
  deriving DecidableEq, Repr

/-- `const isKnown = match.distance < this.config.distanceThreshold;`
(line 161 of `updateCanvas`). -/
def isKnown (cfg : Config) (dist : ℚ) : Bool :=
  dist < cfg.distanceThreshold

/-- `const isSmiling = detection.expressions?.happy > this.config.smileDetectionThreshold;`
(line 162).  When the expression mapping is absent, optional chaining
yields `undefined`, and `undefined > t` is `false` in JavaScript. -/
def isSmiling (cfg : Config) (exprs : Option Expressions) : Bool :=
  match exprs with
  | some e => e.happy > cfg.smileDetectionThreshold
  | none => false

/-- The label string computed by `updateCanvas` for one detection
(lines 160-170): the `if (isKnown) ... else ...` ladder over
`isKnown`/`isSmiling`. -/
def renderLabel (cfg : Config) (dist : ℚ) (exprs : Option Expressions) : String :=
  if isKnown cfg dist then
    if isSmiling cfg exprs then "Known Smiling" else "Known Not Smiling"
  else
    if isSmiling cfg exprs then "Unknown Smiling" else "Unknown Not Smiling"

/-- `updateCanvas` (lines 155-174): for each detection, query the matcher
with the descriptor (`bestMatch` gives the `(label, distance)` pair the
matcher returns) and draw a box with the computed label.  We model the
rendering output as the list of label strings drawn, in order. -/
def updateCanvas (cfg : Config) (bestMatch : Desc → String × ℚ)
    (detections : List Detection) : List String :=
  detections.map fun d => renderLabel cfg (bestMatch d.descriptor).2 d.expressions

/-- The `reason` of a settled promise when it was rejected
(`result.status === 'rejected'` carrying `result.reason`). -/
def rejectionReason : Except String Unit → Option String
  | .error e => some e
  | .ok _ => none

/-- The continuation attached to `Promise.allSettled` in `loadModels`
(lines 27-34): if some constituent was rejected, collect every rejected
constituent's reason and reject with that list; otherwise resolve. -/
def settleModels (results : List (Except String Unit)) : Except (List String) Unit :=
  if results.any fun r => (rejectionReason r).isSome then
    Except.error (results.filterMap rejectionReason)
  else
    Except.ok ()

/-- Process-wide registry state: the static `modelLoader` field caching
the load promise, absent until the first call. -/
structure RegistryState where
  modelLoader : Option (Except (List String) Unit)
  deriving Repr

/-- `static async loadModels(modelUri)` (lines 20-37): when no
`modelLoader` is cached, start the four-artifact load (the environment
`artifacts` gives the outcome each constituent load would have for a
locator) and cache its settled outcome; otherwise return the cached
outcome.  Result: the outcome this caller observes, the new registry
state, and whether this call started the underlying load sequence. -/
def loadModels (artifacts : String → List (Except String Unit))
    (st : RegistryState) (modelUri : String) :
    Except (List String) Unit × RegistryState × Bool :=
  match st.modelLoader with
  | some r => (r, st, false)
  | none =>
      let r := settleModels (artifacts modelUri)
      (r, ⟨some r⟩, true)

/-- Run a sequence of `loadModels` calls against a registry state:
returns the outcomes the callers observe in order, the final state, and
how many underlying load sequences were started. -/
def runLoadCalls (artifacts : String → List (Except String Unit))
    (st : RegistryState) : List String → List (Except (List String) Unit) × RegistryState × Nat
  | [] => ([], st, 0)
  | uri :: uris =>
      let c := loadModels artifacts st uri
      let rest := runLoadCalls artifacts c.2.1 uris
      (c.1 :: rest.1, rest.2.1, (if c.2.2 then 1 else 0) + rest.2.2)

/-- The `labeledDescriptors` map (label → descriptor list), a JavaScript
`Map` modelled as an association list in insertion order with unique keys
maintained by `gallerySet`. -/
abbrev Gallery := List (String × List Desc)

/-- `Map.prototype.has(label)`. -/
def galleryHas (g : Gallery) (label : String) : Bool :=
  g.any fun p => p.1 = label

/-- `Map.prototype.set(label, ds)`: overwrite the entry in place when the
key is present, else append a new entry (JS `Map` keeps first-insertion
order on overwrite). -/
def gallerySet (g : Gallery) (label : String) (ds : List Desc) : Gallery :=
  if galleryHas g label then
    g.map fun p => if p.1 = label then (label, ds) else p
  else
    g ++ [(label, ds)]

/-- The key list of a gallery (`Map.prototype.keys()`). -/
def galleryKeys (g : Gallery) : List String :=
  g.map Prod.fst

/-- The `try` block of the `getLabeledFaceDescriptors` loop body (lines
183-194).  `fetchDetect label` is the outcome of `faceapi.fetchImage` +
`detectAllFaces(...).withFaceLandmarks().withFaceDescriptors()` for that
label's reference image: `none` when that chain throws (the `catch`
logs the error and the loop continues with the map unchanged), `some ds`
the detections' descriptors otherwise; only when at least one face was
found (`detections.length > 0`) is the label stored. -/
def buildStep (fetchDetect : String → Option (List Desc)) (acc : Gallery)
    (label : String) : Gallery :=
  match fetchDetect label with
  | none => acc
  | some ds => if ds.length > 0 then gallerySet acc label ds else acc

/-- The `for (const label of labels)` loop of `getLabeledFaceDescriptors`
(lines 180-196), with the fresh `descriptors` map and the list of labels
fetched so far as accumulators: a label already present in the
instance's map (`existing`) is skipped without fetching; otherwise the
label's reference image is fetched and processed by `buildStep`. -/
def buildLoop (fetchDetect : String → Option (List Desc)) (existing : Gallery)
    (acc : Gallery) (fetched : List String) : List String → Gallery × List String
  | [] => (acc, fetched)
  | label :: rest =>
      if galleryHas existing label then
        buildLoop fetchDetect existing acc fetched rest
      else
        buildLoop fetchDetect existing (buildStep fetchDetect acc label)
          (fetched ++ [label]) rest

/-- `getLabeledFaceDescriptors(labels)` (lines 177-199): starting from a
fresh `descriptors` map, for each label not already in the instance's
`labeledDescriptors` (`existing`) fetch and detect; a per-label failure
is caught and logged inside the loop, so the build always completes and
returns the fresh map.  Also returns the labels whose reference image
was fetched. -/
def getLabeledFaceDescriptors (fetchDetect : String → Option (List Desc))
    (existing : Gallery) (labels : List String) : Gallery × List String :=
  buildLoop fetchDetect existing [] [] labels

/-- A label succeeds in the build exactly when its fetch+detect chain
does not throw and finds at least one face. -/
def buildSuccess (fetchDetect : String → Option (List Desc)) (label : String) : Bool :=
  match fetchDetect label with
  | some ds => ds.length > 0
  | none => false

/-- Modelled from the spec: `faceapi.FaceMatcher` is an external library
artifact not present under `src/`.  Per the spec (§3 Matcher, §4.5
MatcherCache) it is an immutable snapshot built from whatever gallery is
available — including an empty one, never throwing on empty input. -/
structure FaceMatcher where
  snapshot : Gallery
  deriving DecidableEq, Repr

/-- Modelled from the spec: constructing the matcher never throws, also
on an empty gallery (spec §4.5: "never throws on empty input"). -/
def FaceMatcher.build (g : Gallery) : Except String FaceMatcher :=
  Except.ok ⟨g⟩

/-- The best gallery candidate for a probe: the (label, distance) pair
with the least distance over every stored descriptor, `none` when the
gallery holds no descriptor at all.  `dist` is the external descriptor
distance function. -/
def bestCandidate (dist : Desc → Desc → ℚ) (g : Gallery) (probe : Desc) :
    Option (String × ℚ) :=
  g.foldl (fun best p =>
    p.2.foldl (fun best d =>
      match best with
      | none => some (p.1, dist probe d)
      | some b => if dist probe d < b.2 then some (p.1, dist probe d) else best) best)
    none

/-- Modelled from the spec: `query(descriptor) → (best label or
"unknown", distance)` (spec §3); a matcher built from an empty gallery
classifies every probe as "unknown" with no match, reported with the
maximal distance 1. -/
def FaceMatcher.findBestMatch (dist : Desc → Desc → ℚ) (m : FaceMatcher)
    (probe : Desc) : String × ℚ :=
  match bestCandidate dist m.snapshot probe with
  | none => ("unknown", 1)
  | some b => b

/-- The mutable fields of one `FaceRecognition` instance used by the
lifecycle operations.  `videoElement` records that the element reference
is set (the constructor always sets it and nothing ever clears it);
`videoStream` holds the active stream's track identities; canvases are
identified by `Nat` with `nextId` the next fresh one and the pool's most
recently pushed element at the head; `playListeners` holds the closure
identities currently subscribed to the element's `play` event;
`pendingFrame` records that a `requestAnimationFrame` callback is
scheduled; `stopRequested` is a ghost flag recording that
`stopProcessing` was invoked. -/
structure FRState where
  videoElement : Bool
  videoStream : Option (List Nat)
  canvas : Option Nat
  canvasPool : List Nat
  nextId : Nat
  labeledDescriptors : Gallery
  faceMatcher : Option FaceMatcher
  playListeners : List Nat
  pendingFrame : Bool
  stopRequested : Bool
  deriving DecidableEq, Repr

/-- `setupCanvas`/`createCanvas` (lines 98-114): when no canvas is
active, pop the most recently pushed pooled canvas if the pool is
non-empty, else create a fresh one.  (The sizing side effects touch no
modelled state.) -/
def setupCanvas (st : FRState) : FRState :=
  match st.canvas with
  | some _ => st
  | none =>
      match st.canvasPool with
      | c :: rest => { st with canvas := some c, canvasPool := rest }
      | [] => { st with canvas := some st.nextId, nextId := st.nextId + 1 }

/-- `maxCanvasPoolSize` (line 9). -/
def maxCanvasPoolSize : Nat := 10

/-- `cleanupCanvas` (lines 202-211): when a canvas is active, push it
onto the pool if the pool size is strictly below `maxCanvasPoolSize`,
otherwise remove (destroy) it; then clear the active-canvas field. -/
def cleanupCanvas (st : FRState) : FRState :=
  match st.canvas with
  | none => st
  | some c =>
      if st.canvasPool.length < maxCanvasPoolSize then
        { st with canvas := none, canvasPool := c :: st.canvasPool }
      else
        { st with canvas := none }

/-- A surface-pool operation: acquire (`setupCanvas`, which pops or
creates) or release (`cleanupCanvas`, which pushes or destroys). -/
inductive CanvasOp
  | acquire
  | release
  deriving DecidableEq, Repr

/-- Run a sequence of surface-pool operations. -/
def runCanvasOps (st : FRState) : List CanvasOp → FRState
  | [] => st
  | CanvasOp.acquire :: ops => runCanvasOps (setupCanvas st) ops
  | CanvasOp.release :: ops => runCanvasOps (cleanupCanvas st) ops

/-- `disposeFaceMatcher` (lines 219-224): clear the cached matcher when
present; a no-op when absent. -/
def disposeFaceMatcher (st : FRState) : FRState :=
  match st.faceMatcher with
  | some _ => { st with faceMatcher := none }
  | none => st

/-- `stopWebcam` (lines 71-79): when a stream is active, stop every track
via `this.videoStream.getTracks().map(track => track.stop())` — a
synchronously throwing `stop` aborts the `map`, so later tracks are not
stopped and the remainder of the method never runs (the uncaught
exception is the `Except.error`); when every stop succeeds, clear the
stream handle (and the element's `srcObject`), return the canvas to the
pool (`cleanupCanvas`) and dispose the matcher.  When no stream is
active this is a no-op.  `stopRes` gives each track's stop outcome.
Ordering: `track.stop()` settles synchronously, so the continuation
after the `await Promise.all` is queued as a microtask during the stop
call's task; the event loop drains microtasks before any later task, so
this cleanup runs before a frame iteration suspended at the detection
`await` can resume and before any pending `requestAnimationFrame`
callback fires — the post-cleanup state is what the in-flight iteration
observes. -/
def stopWebcam (stopRes : Nat → Except String Unit) (st : FRState) :
    Except String FRState :=
  match st.videoStream with
  | none => Except.ok st
  | some tracks =>
      match tracks.mapM stopRes with
      | Except.error e => Except.error e
      | Except.ok _ =>
          Except.ok (disposeFaceMatcher (cleanupCanvas { st with videoStream := none }))

/-- `stopProcessing` (lines 92-95):
`removeEventListener('play', () => this.processVideoFrames())` removes
the identity of a closure freshly created at the call site (`removedId`),
which therefore differs from every previously registered listener; then
`stopWebcam()` runs.  The ghost flag records the stop request. -/
def stopProcessing (removedId : Nat) (stopRes : Nat → Except String Unit)
    (st : FRState) : Except String FRState :=
  stopWebcam stopRes
    { st with playListeners := st.playListeners.filter (· ≠ removedId),
              stopRequested := true }

/-- `setupFaceMatcher` (lines 126-137): when no matcher is cached, build
the gallery first if it is empty (fetching the configured labels'
reference images), then cache a matcher snapshot of the gallery's
entries.  Returns the new state and the labels whose reference image was
fetched (empty when nothing was fetched). -/
def setupFaceMatcher (fetchDetect : String → Option (List Desc))
    (labels : List String) (st : FRState) : FRState × List String :=
  match st.faceMatcher with
  | some _ => (st, [])
  | none =>
      let built :=
        if st.labeledDescriptors.length = 0 then
          getLabeledFaceDescriptors fetchDetect st.labeledDescriptors labels
        else (st.labeledDescriptors, [])
      ({ st with labeledDescriptors := built.1, faceMatcher := some ⟨built.1⟩ },
        built.2)

/-- One `processVideoFrames` iteration (lines 140-152), entered when the
scheduled `requestAnimationFrame` callback fires (consuming
`pendingFrame`).  The guard returns early when the element reference is
absent; otherwise `det` is the outcome of the awaited
detect/landmarks/descriptors/expressions chain for this frame: when it
throws, nothing catches the rejection, the rendering and the
`requestAnimationFrame` call on line 151 are never reached and the
uncaught error is reported.  When the detection succeeds, the results
are resized and handed to `updateCanvas` (line 150), whose first
statement is `this.canvas.getContext('2d')` (line 156): when `canvas`
has been nulled by `stopWebcam`'s cleanup, this throws a `TypeError`
that nothing catches, again skipping line 151.  Only when the canvas is
still present does the iteration render (label output modelled by
`updateCanvas` above) and reach line 151, scheduling the next
iteration — no flag other than `videoElement` is consulted there. -/
def processVideoFrames (det : Except String (List Detection)) (st : FRState) :
    FRState × Option String :=
  if st.videoElement = false then ({ st with pendingFrame := false }, none)
  else
    match det with
    | Except.error e => ({ st with pendingFrame := false }, some e)
    | Except.ok _ =>
        match st.canvas with
        | none => ({ st with pendingFrame := false }, some "TypeError: this.canvas is null")
        | some _ => ({ st with pendingFrame := true }, none)

/-- A run of frame-loop events after a point in time: each event in the
list is the detection outcome a `requestAnimationFrame` callback would
observe, and the callback only runs when one is actually scheduled
(`pendingFrame`); once no callback is pending, nothing ever runs
again. -/
def runFrames (st : FRState) : List (Except String (List Detection)) → FRState
  | [] => st
  | det :: rest =>
      if st.pendingFrame then runFrames (processVideoFrames det st).1 rest
      else st

end FaceRec

open FaceRec

/-- C1: for every detection processed in a frame iteration, the rendered
label is "known" exactly when the best-match distance is strictly below
`distanceThreshold`, "smiling" exactly when the expression mapping is
present with `happy` strictly above `smileDetectionThreshold` (absence
means not-smiling, never an error), and the label is exactly one of the
four fixed strings according to the conjunction of the two
classifications. -/
theorem C1_render_label_classification (cfg : Config)
    (bestMatch : Desc → String × ℚ) (detections : List Detection)
    (d : Detection) (hd : d ∈ detections) :
    renderLabel cfg (bestMatch d.descriptor).2 d.expressions ∈ updateCanvas cfg bestMatch detections
    ∧ (isKnown cfg (bestMatch d.descriptor).2 = true ↔ (bestMatch d.descriptor).2 < cfg.distanceThreshold)
    ∧ (isSmiling cfg d.expressions = true ↔
        ∃ e, d.expressions = some e ∧ e.happy > cfg.smileDetectionThreshold)
    ∧ (d.expressions = none → isSmiling cfg d.expressions = false)
    ∧ renderLabel cfg (bestMatch d.descriptor).2 d.expressions ∈
        ["Known Smiling", "Known Not Smiling", "Unknown Smiling", "Unknown Not Smiling"]
    ∧ (renderLabel cfg (bestMatch d.descriptor).2 d.expressions = "Known Smiling" ↔
        isKnown cfg (bestMatch d.descriptor).2 = true ∧ isSmiling cfg d.expressions = true)
    ∧ (renderLabel cfg (bestMatch d.descriptor).2 d.expressions = "Known Not Smiling" ↔
        isKnown cfg (bestMatch d.descriptor).2 = true ∧ isSmiling cfg d.expressions = false)
    ∧ (renderLabel cfg (bestMatch d.descriptor).2 d.expressions = "Unknown Smiling" ↔
        isKnown cfg (bestMatch d.descriptor).2 = false ∧ isSmiling cfg d.expressions = true)
    ∧ (renderLabel cfg (bestMatch d.descriptor).2 d.expressions = "Unknown Not Smiling" ↔
        isKnown cfg (bestMatch d.descriptor).2 = false ∧ isSmiling cfg d.expressions = false) := by
  refine ⟨?_, ?_, ?_, ?_, ?_, ?_, ?_, ?_, ?_⟩
  · exact List.mem_map.mpr ⟨d, hd, rfl⟩
  · simp [isKnown]
  · cases h : d.expressions with
    | none => simp [isSmiling]
    | some e => simp [isSmiling]
  · intro h; simp [isSmiling, h]
  · unfold renderLabel
    rcases isKnown cfg (bestMatch d.descriptor).2 <;>
      rcases isSmiling cfg d.expressions <;> simp
  · unfold renderLabel
    rcases hk : isKnown cfg (bestMatch d.descriptor).2 <;>
      rcases hs : isSmiling cfg d.expressions <;> simp
  · unfold renderLabel
    rcases hk : isKnown cfg (bestMatch d.descriptor).2 <;>
      rcases hs : isSmiling cfg d.expressions <;> simp
  · unfold renderLabel
    rcases hk : isKnown cfg (bestMatch d.descriptor).2 <;>
      rcases hs : isSmiling cfg d.expressions <;> simp
  · unfold renderLabel
    rcases hk : isKnown cfg (bestMatch d.descriptor).2 <;>
      rcases hs : isSmiling cfg d.expressions <;> simp

/-- Witness for C1 at Scenario D of the spec: distance `3/5` against
threshold `1/2`, happy score `1/10` against threshold `1/2` yields
"Unknown Not Smiling". -/
theorem C1_render_label_classification_witness :
    let cfg : Config := ⟨"/static/models", "video", ["alice"], 3/5, 1/2, 1/2⟩
    let d : Detection := ⟨[0], some ⟨1/10⟩⟩
    let bm : Desc → String × ℚ := fun _ => ("alice", 3/5)
    renderLabel cfg (bm d.descriptor).2 d.expressions ∈ updateCanvas cfg bm [d]
    ∧ renderLabel cfg (bm d.descriptor).2 d.expressions = "Unknown Not Smiling" := by
  refine ⟨(C1_render_label_classification _ _ [⟨[0], some ⟨1/10⟩⟩] _ (by simp)).1, ?_⟩
  norm_num [renderLabel, isKnown, isSmiling]

/-- Once a `modelLoader` outcome is cached, every further call (with any
locator) returns the cached outcome and starts no load. -/
lemma runLoadCalls_cached (artifacts : String → List (Except String Unit))
    (r : Except (List String) Unit) (uris : List String) :
    runLoadCalls artifacts ⟨some r⟩ uris = (uris.map fun _ => r, ⟨some r⟩, 0) := by
  induction uris with
  | nil => rfl
  | cons u uris ih => simp [runLoadCalls, loadModels, ih]

/-- The first call from a fresh registry starts the one load; the rest
observe its cached outcome. -/
lemma runLoadCalls_fresh (artifacts : String → List (Except String Unit))
    (u : String) (uris : List String) :
    runLoadCalls artifacts ⟨none⟩ (u :: uris) =
      (settleModels (artifacts u) :: (uris.map fun _ => settleModels (artifacts u)),
        ⟨some (settleModels (artifacts u))⟩, 1) := by
  simp [runLoadCalls, loadModels, runLoadCalls_cached]

/-- C5: for `n ≥ 1` calls to `loadModels` with the same locator, exactly
one underlying multi-artifact load sequence executes; every caller
observes the identical outcome; that outcome is a rejection carrying the
reasons of all rejected constituents whenever some constituent fails,
and a success exactly when every constituent succeeds. -/
theorem C5_load_models_shared_outcome
    (artifacts : String → List (Except String Unit)) (uri : String)
    (n : Nat) (hn : 1 ≤ n) :
    (runLoadCalls artifacts ⟨none⟩ (List.replicate n uri)).2.2 = 1
    ∧ (∀ r ∈ (runLoadCalls artifacts ⟨none⟩ (List.replicate n uri)).1,
        r = settleModels (artifacts uri))
    ∧ ((∃ a ∈ artifacts uri, a ≠ Except.ok ()) →
        settleModels (artifacts uri) =
          Except.error ((artifacts uri).filterMap rejectionReason))
    ∧ ((∀ a ∈ artifacts uri, a = Except.ok ()) →
        settleModels (artifacts uri) = Except.ok ()) := by
  obtain ⟨m, rfl⟩ : ∃ m, n = m + 1 := ⟨n - 1, (Nat.succ_pred_eq_of_pos hn).symm⟩
  rw [List.replicate_succ]
  refine ⟨?_, ?_, ?_, ?_⟩
  · rw [runLoadCalls_fresh]
  · rw [runLoadCalls_fresh]
    intro r hr
    rcases List.mem_cons.mp hr with h | h
    · exact h
    · obtain ⟨a, ha, hfa⟩ := List.mem_map.mp h
      exact hfa.symm
  · rintro ⟨a, ha, hne⟩
    have : (rejectionReason a).isSome := by
      cases a with
      | error e => rfl
      | ok v => exact absurd rfl hne
    unfold settleModels
    rw [if_pos (List.any_eq_true.mpr ⟨a, ha, this⟩)]
  · intro hall
    unfold settleModels
    rw [if_neg]
    simp only [List.any_eq_true, not_exists, not_and]
    intro a ha
    rw [hall a ha]
    simp [rejectionReason]

/-- Witness for C5: three calls with the same locator where the second
constituent fails; one load starts and each call observes the rejection
carrying that failure. -/
theorem C5_load_models_shared_outcome_witness :
    let arts : String → List (Except String Unit) :=
      fun _ => [Except.ok (), Except.error "net down", Except.ok (), Except.ok ()]
    (1 : Nat) ≤ 3
    ∧ ((runLoadCalls arts ⟨none⟩ (List.replicate 3 "/static/models")).2.2 = 1
      ∧ (∀ r ∈ (runLoadCalls arts ⟨none⟩ (List.replicate 3 "/static/models")).1,
          r = settleModels (arts "/static/models"))
      ∧ ((∃ a ∈ arts "/static/models", a ≠ Except.ok ()) →
          settleModels (arts "/static/models") =
            Except.error ((arts "/static/models").filterMap rejectionReason))
      ∧ ((∀ a ∈ arts "/static/models", a = Except.ok ()) →
          settleModels (arts "/static/models") = Except.ok ())) :=
  ⟨by decide, C5_load_models_shared_outcome _ "/static/models" 3 (by decide)⟩

/-- C10: the cache ignores its locator after the first call — every
later call observes the very first call's outcome even with a different
locator, at most one load sequence ever executes no matter how many
distinct locators are used, and a failed first load is cached and
returned to all later callers. -/
theorem C10_cache_ignores_locator
    (artifacts : String → List (Except String Unit))
    (u : String) (uris : List String) :
    (∀ r ∈ (runLoadCalls artifacts ⟨none⟩ (u :: uris)).1,
        r = settleModels (artifacts u))
    ∧ (runLoadCalls artifacts ⟨none⟩ (u :: uris)).2.2 = 1
    ∧ (∀ vs : List String, (runLoadCalls artifacts ⟨none⟩ vs).2.2 ≤ 1)
    ∧ (runLoadCalls artifacts ⟨none⟩ (u :: uris)).2.1 =
        ⟨some (settleModels (artifacts u))⟩ := by
  refine ⟨?_, ?_, ?_, ?_⟩
  · rw [runLoadCalls_fresh]
    intro r hr
    rcases List.mem_cons.mp hr with h | h
    · exact h
    · obtain ⟨a, ha, hfa⟩ := List.mem_map.mp h
      exact hfa.symm
  · rw [runLoadCalls_fresh]
  · intro vs
    cases vs with
    | nil => exact Nat.zero_le 1
    | cons v vs => rw [runLoadCalls_fresh]
  · rw [runLoadCalls_fresh]

/-- Witness for C10: two calls with two distinct locators, the first
load failing; the second caller observes the first call's cached
rejection and only one load ran. -/
theorem C10_cache_ignores_locator_witness :
    let arts : String → List (Except String Unit) :=
      fun s => if s = "/a" then [Except.error "boom"] else [Except.ok ()]
    (∀ r ∈ (runLoadCalls arts ⟨none⟩ ["/a", "/b"]).1, r = settleModels (arts "/a"))
    ∧ (runLoadCalls arts ⟨none⟩ ["/a", "/b"]).2.2 = 1
    ∧ (∀ vs : List String, (runLoadCalls arts ⟨none⟩ vs).2.2 ≤ 1)
    ∧ (runLoadCalls arts ⟨none⟩ ["/a", "/b"]).2.1 = ⟨some (settleModels (arts "/a"))⟩ :=
  C10_cache_ignores_locator _ "/a" ["/b"]

/-- A gallery has a label exactly when the label is among its keys. -/
lemma galleryHas_iff (g : Gallery) (l : String) :
    galleryHas g l = true ↔ l ∈ galleryKeys g := by
  unfold galleryHas galleryKeys
  rw [List.any_eq_true]
  constructor
  · rintro ⟨p, hp, he⟩
    exact List.mem_map.mpr ⟨p, hp, of_decide_eq_true he⟩
  · intro hm
    obtain ⟨p, hp, he⟩ := List.mem_map.mp hm
    exact ⟨p, hp, decide_eq_true he⟩

/-- Overwriting a present key leaves the key list unchanged. -/
lemma galleryKeys_set_of_has (g : Gallery) (label : String) (ds : List Desc)
    (h : galleryHas g label = true) :
    galleryKeys (gallerySet g label ds) = galleryKeys g := by
  unfold gallerySet
  rw [if_pos h]
  unfold galleryKeys
  rw [List.map_map]
  apply List.map_congr_left
  intro p hp
  by_cases hpl : p.1 = label
  · simp [hpl]
  · simp [hpl]

/-- Membership in the keys after a `set`. -/
lemma mem_galleryKeys_set (g : Gallery) (label : String) (ds : List Desc) (l : String) :
    l ∈ galleryKeys (gallerySet g label ds) ↔ l = label ∨ l ∈ galleryKeys g := by
  by_cases h : galleryHas g label
  · rw [galleryKeys_set_of_has g label ds h]
    constructor
    · exact Or.inr
    · rintro (rfl | hm)
      · exact (galleryHas_iff g l).mp h
      · exact hm
  · unfold gallerySet
    rw [if_neg h]
    unfold galleryKeys
    rw [List.map_append]
    simp [or_comm]

/-- A boolean that is not true is false. -/
lemma bool_not_true {b : Bool} (h : ¬ b = true) : b = false := by
  cases b
  · rfl
  · exact absurd rfl h

/-- Membership in the keys after one build step. -/
lemma mem_keys_buildStep (f : String → Option (List Desc)) (acc : Gallery)
    (label : String) (l : String) :
    l ∈ galleryKeys (buildStep f acc label) ↔
      (l = label ∧ buildSuccess f label = true) ∨ l ∈ galleryKeys acc := by
  unfold buildStep buildSuccess
  cases hf : f label with
  | none => simp
  | some ds =>
    by_cases hds : ds.length > 0
    · simp [hds, mem_galleryKeys_set]
    · simp [hds]

/-- Characterisation of the keys produced by the build loop. -/
lemma buildLoop_keys_mem (f : String → Option (List Desc)) (ex : Gallery)
    (labels : List String) (acc : Gallery) (fetched : List String) (l : String) :
    l ∈ galleryKeys (buildLoop f ex acc fetched labels).1 ↔
      l ∈ galleryKeys acc
        ∨ (l ∈ labels ∧ galleryHas ex l = false ∧ buildSuccess f l = true) := by
  induction labels generalizing acc fetched with
  | nil => simp [buildLoop]
  | cons label rest ih =>
    unfold buildLoop
    by_cases hex : galleryHas ex label = true
    · rw [if_pos hex, ih]
      by_cases hl : l = label
      · subst hl
        simp [hex]
      · simp [List.mem_cons, hl]
    · rw [if_neg hex, ih, mem_keys_buildStep]
      by_cases hl : l = label
      · subst hl
        simp only [bool_not_true hex, List.mem_cons]
        constructor
        · rintro ((⟨-, hs⟩ | ha) | ⟨hr, -, hs⟩)
          · exact Or.inr ⟨Or.inl trivial, trivial, hs⟩
          · exact Or.inl ha
          · exact Or.inr ⟨Or.inl trivial, trivial, hs⟩
        · rintro (ha | ⟨-, -, hs⟩)
          · exact Or.inl (Or.inr ha)
          · exact Or.inl (Or.inl ⟨trivial, hs⟩)
      · simp [List.mem_cons, hl]

/-- Characterisation of the labels fetched by the build loop. -/
lemma buildLoop_fetched_mem (f : String → Option (List Desc)) (ex : Gallery)
    (labels : List String) (acc : Gallery) (fetched : List String) (l : String) :
    l ∈ (buildLoop f ex acc fetched labels).2 ↔
      l ∈ fetched ∨ (l ∈ labels ∧ galleryHas ex l = false) := by
  induction labels generalizing acc fetched with
  | nil => simp [buildLoop]
  | cons label rest ih =>
    unfold buildLoop
    by_cases hex : galleryHas ex label = true
    · rw [if_pos hex, ih]
      by_cases hl : l = label
      · subst hl
        simp [hex]
      · simp [List.mem_cons, hl]
    · rw [if_neg hex, ih]
      by_cases hl : l = label
      · subst hl
        simp [bool_not_true hex, List.mem_cons]
      · simp [List.mem_cons, hl]

/-- C6: building the gallery from an empty one over a label list
completes as a total function (a per-label fetch or detection failure is
caught inside the loop and only skips that label), and the returned
gallery's key set is exactly the set of listed labels whose fetch and
detection succeeded with at least one face — the label list minus the
failing subset. -/
theorem C6_gallery_build_key_set (f : String → Option (List Desc))
    (labels : List String) (l : String) :
    (l ∈ galleryKeys (getLabeledFaceDescriptors f [] labels).1 ↔
      l ∈ labels ∧ buildSuccess f l = true)
    ∧ (buildSuccess f l = false ↔ f l = none ∨ f l = some []) := by
  constructor
  · unfold getLabeledFaceDescriptors
    rw [buildLoop_keys_mem]
    simp [galleryKeys, galleryHas]
  · unfold buildSuccess
    cases hf : f l with
    | none => simp
    | some ds => cases ds <;> simp

/-- C7 counterexample: with the gallery already containing "alice" and
every fetch succeeding, a build over ["alice"] fetches nothing — yet the
gallery returned by the build is empty: it does not still contain
"alice", contrary to the claim. -/
theorem C7_incremental_build_counterexample :
    (getLabeledFaceDescriptors (fun _ => some [[2]]) [("alice", [[1]])] ["alice"]).2 = []
    ∧ (getLabeledFaceDescriptors (fun _ => some [[2]]) [("alice", [[1]])] ["alice"]).1 = []
    ∧ galleryHas (getLabeledFaceDescriptors (fun _ => some [[2]])
        [("alice", [[1]])] ["alice"]).1 "alice" = false := by
  refine ⟨rfl, rfl, rfl⟩

/-- C7 amended: a label already present before a build is never fetched
again; however the gallery returned by `getLabeledFaceDescriptors` is a
fresh map that omits already-present labels rather than still containing
them.  At the matcher-setup call site the build result only replaces the
instance's gallery when that gallery was empty, so with a non-empty
stored gallery `setupFaceMatcher` fetches nothing and leaves the stored
gallery unchanged. -/
theorem C7_incremental_build_amended (f : String → Option (List Desc))
    (ex : Gallery) (labels : List String) (l : String) (st : FRState)
    (hl : l ∈ galleryKeys ex) (hst : st.labeledDescriptors = ex) (hne : ex ≠ []) :
    l ∉ (getLabeledFaceDescriptors f ex labels).2
    ∧ l ∉ galleryKeys (getLabeledFaceDescriptors f ex labels).1
    ∧ (setupFaceMatcher f labels st).1.labeledDescriptors = ex
    ∧ (setupFaceMatcher f labels st).2 = [] := by
  have hhas : galleryHas ex l = true := (galleryHas_iff ex l).mpr hl
  have hlen : ¬ st.labeledDescriptors.length = 0 := by
    rw [hst]
    simpa [List.length_eq_zero] using hne
  refine ⟨?_, ?_, ?_, ?_⟩
  · unfold getLabeledFaceDescriptors
    rw [buildLoop_fetched_mem]
    rintro (h | ⟨-, hfalse⟩)
    · simp at h
    · rw [hhas] at hfalse
      cases hfalse
  · unfold getLabeledFaceDescriptors
    rw [buildLoop_keys_mem]
    rintro (h | ⟨-, hfalse, -⟩)
    · simp [galleryKeys] at h
    · rw [hhas] at hfalse
      cases hfalse
  · unfold setupFaceMatcher
    cases hmatch : st.faceMatcher with
    | some m => exact hst
    | none =>
      simp only [if_neg hlen]
      exact hst
  · unfold setupFaceMatcher
    cases hmatch : st.faceMatcher with
    | some m => rfl
    | none =>
      simp only [if_neg hlen]

/-- Witness for C7's amended theorem: the gallery already holds "alice",
every fetch would succeed, and the build over ["alice"] fetches nothing
and returns an empty fresh map while `setupFaceMatcher` keeps the stored
gallery. -/
theorem C7_incremental_build_amended_witness :
    ("alice" ∈ galleryKeys [("alice", [[1]])]
      ∧ (⟨true, none, none, [], 0, [("alice", [[1]])], none, [], false, false⟩ :
          FRState).labeledDescriptors = [("alice", [[1]])]
      ∧ ([("alice", [[1]])] : Gallery) ≠ [])
    ∧ ("alice" ∉ (getLabeledFaceDescriptors (fun _ => some [[2]]) [("alice", [[1]])] ["alice"]).2
      ∧ "alice" ∉ galleryKeys (getLabeledFaceDescriptors (fun _ => some [[2]])
          [("alice", [[1]])] ["alice"]).1
      ∧ (setupFaceMatcher (fun _ => some [[2]]) ["alice"]
          ⟨true, none, none, [], 0, [("alice", [[1]])], none, [], false, false⟩).1.labeledDescriptors
          = [("alice", [[1]])]
      ∧ (setupFaceMatcher (fun _ => some [[2]]) ["alice"]
          ⟨true, none, none, [], 0, [("alice", [[1]])], none, [], false, false⟩).2 = []) :=
  ⟨⟨by simp [galleryKeys], rfl, by simp⟩,
    C7_incremental_build_amended (fun _ => some [[2]]) [("alice", [[1]])] ["alice"] "alice"
      ⟨true, none, none, [], 0, [("alice", [[1]])], none, [], false, false⟩
      (by simp [galleryKeys]) rfl (by simp)⟩

/-- Acquiring a canvas never grows the pool. -/
lemma setupCanvas_pool_length_le (st : FRState) :
    (setupCanvas st).canvasPool.length ≤ st.canvasPool.length := by
  unfold setupCanvas
  cases hc : st.canvas with
  | some c => exact le_refl _
  | none =>
    cases hp : st.canvasPool with
    | nil => simp [hp]
    | cons c rest => simp [hp]

/-- Releasing a canvas keeps the pool within capacity. -/
lemma cleanupCanvas_pool_length_le (st : FRState)
    (h : st.canvasPool.length ≤ maxCanvasPoolSize) :
    (cleanupCanvas st).canvasPool.length ≤ maxCanvasPoolSize := by
  unfold cleanupCanvas
  cases hc : st.canvas with
  | none => exact h
  | some c =>
    by_cases hlt : st.canvasPool.length < maxCanvasPoolSize
    · simp only [hlt, if_true, List.length_cons]
      exact hlt
    · simp only [hlt, if_false]
      exact h

/-- The pool stays within capacity under any operation sequence. -/
lemma runCanvasOps_pool_le (ops : List CanvasOp) (st : FRState)
    (h : st.canvasPool.length ≤ maxCanvasPoolSize) :
    (runCanvasOps st ops).canvasPool.length ≤ maxCanvasPoolSize := by
  induction ops generalizing st with
  | nil => exact h
  | cons op ops ih =>
    cases op with
    | acquire => exact ih _ (le_trans (setupCanvas_pool_length_le st) h)
    | release => exact ih _ (cleanupCanvas_pool_length_le st h)

/-- C8: after any finite sequence of surface-pool acquires
(`setupCanvas`, pop or create) and releases (`cleanupCanvas`, push or
destroy) starting within capacity, the pool size stays at most
`maxCanvasPoolSize` = 10; a release pushes the active canvas only when
the pool size is strictly below 10 and destroys it otherwise, so a
surface beyond capacity is never retained. -/
theorem C8_surface_pool_bounded (st : FRState) (ops : List CanvasOp)
    (h : st.canvasPool.length ≤ maxCanvasPoolSize) :
    (runCanvasOps st ops).canvasPool.length ≤ maxCanvasPoolSize
    ∧ maxCanvasPoolSize = 10
    ∧ (∀ c, st.canvas = some c →
        (st.canvasPool.length < maxCanvasPoolSize →
          (cleanupCanvas st).canvasPool = c :: st.canvasPool)
        ∧ (¬ st.canvasPool.length < maxCanvasPoolSize →
          (cleanupCanvas st).canvasPool = st.canvasPool
            ∧ (cleanupCanvas st).canvas = none)) := by
  refine ⟨runCanvasOps_pool_le ops st h, rfl, ?_⟩
  intro c hc
  constructor
  · intro hlt
    simp [cleanupCanvas, hc, hlt]
  · intro hge
    simp [cleanupCanvas, hc, hge]

/-- Witness for C8: from a state with an active canvas and a full pool of
ten, a release destroys the surface (pool stays at ten) and further
acquire/release cycles keep the pool within capacity. -/
theorem C8_surface_pool_bounded_witness :
    let st : FRState := ⟨true, none, some 10, [0, 1, 2, 3, 4, 5, 6, 7, 8, 9], 11,
      [], none, [], false, false⟩
    st.canvasPool.length ≤ maxCanvasPoolSize
    ∧ ((runCanvasOps st [CanvasOp.release, CanvasOp.acquire, CanvasOp.release,
          CanvasOp.release]).canvasPool.length ≤ maxCanvasPoolSize
      ∧ maxCanvasPoolSize = 10
      ∧ (∀ c, st.canvas = some c →
          (st.canvasPool.length < maxCanvasPoolSize →
            (cleanupCanvas st).canvasPool = c :: st.canvasPool)
          ∧ (¬ st.canvasPool.length < maxCanvasPoolSize →
            (cleanupCanvas st).canvasPool = st.canvasPool
              ∧ (cleanupCanvas st).canvas = none))) :=
  ⟨by decide,
    C8_surface_pool_bounded _ [CanvasOp.release, CanvasOp.acquire, CanvasOp.release,
      CanvasOp.release] (by decide)⟩

/-- C4: building the matcher from an empty gallery (zero labeled
descriptor entries) succeeds without throwing, and querying the
resulting matcher with any probe descriptor finds no candidate and
returns the label "unknown".  (The matcher itself is modelled from the
spec: its implementation is an external library artifact not under
`src/`.) -/
theorem C4_empty_gallery_matcher (dist : Desc → Desc → ℚ) (probe : Desc)
    (m : FaceMatcher) (hm : FaceMatcher.build [] = Except.ok m) :
    FaceMatcher.build [] = Except.ok (⟨[]⟩ : FaceMatcher)
    ∧ bestCandidate dist m.snapshot probe = none
    ∧ (FaceMatcher.findBestMatch dist m probe).1 = "unknown"
    ∧ FaceMatcher.findBestMatch dist m probe = ("unknown", 1) := by
  have h := hm
  unfold FaceMatcher.build at h
  injection h with h2
  subst h2
  exact ⟨rfl, rfl, rfl, rfl⟩

/-- Witness for C4: a concrete distance function and probe against the
matcher built from the empty gallery. -/
theorem C4_empty_gallery_matcher_witness :
    FaceMatcher.build [] = Except.ok (⟨[]⟩ : FaceMatcher)
    ∧ (FaceMatcher.build [] = Except.ok (⟨[]⟩ : FaceMatcher)
      ∧ bestCandidate (fun _ _ => 0) (FaceMatcher.snapshot ⟨[]⟩) [1] = none
      ∧ (FaceMatcher.findBestMatch (fun _ _ => 0) ⟨[]⟩ [1]).1 = "unknown"
      ∧ FaceMatcher.findBestMatch (fun _ _ => 0) ⟨[]⟩ [1] = ("unknown", 1)) :=
  ⟨rfl, C4_empty_gallery_matcher (fun _ _ => 0) [1] ⟨[]⟩ rfl⟩

/-- When every track stop succeeds, stopping all tracks succeeds. -/
lemma mapM_stop_ok (stopRes : Nat → Except String Unit) (tracks : List Nat)
    (hok : ∀ t ∈ tracks, stopRes t = Except.ok ()) :
    tracks.mapM stopRes = Except.ok (tracks.map fun _ => ()) := by
  induction tracks with
  | nil => rfl
  | cons t ts ih =>
    rw [List.mapM_cons, hok t (List.mem_cons_self t ts),
      ih fun x hx => hok x (List.mem_cons_of_mem t hx)]
    rfl

/-- Fields of the state after disposing the matcher. -/
lemma disposeFaceMatcher_fields (s : FRState) :
    (disposeFaceMatcher s).faceMatcher = none
    ∧ (disposeFaceMatcher s).videoStream = s.videoStream
    ∧ (disposeFaceMatcher s).canvasPool = s.canvasPool
    ∧ (disposeFaceMatcher s).canvas = s.canvas
    ∧ (disposeFaceMatcher s).labeledDescriptors = s.labeledDescriptors := by
  unfold disposeFaceMatcher
  cases hf : s.faceMatcher with
  | none => exact ⟨hf, rfl, rfl, rfl, rfl⟩
  | some m => exact ⟨rfl, rfl, rfl, rfl, rfl⟩

/-- C9 counterexample: with an active stream of two tracks whose first
stop throws, the release operation propagates the exception instead of
continuing past the failure — the stream handle is not cleared, no
surface is returned to the pool and the matcher is not disposed. -/
theorem C9_release_counterexample :
    stopWebcam (fun t => if t = 1 then Except.error "track stop failed" else Except.ok ())
      ⟨true, some [1, 2], some 0, [], 1, [], some ⟨[]⟩, [7], false, false⟩ =
      Except.error "track stop failed" := by
  rfl

/-- Fields of the state after cleaning up the canvas. -/
lemma cleanupCanvas_fields (s : FRState) :
    (cleanupCanvas s).videoStream = s.videoStream
    ∧ (cleanupCanvas s).faceMatcher = s.faceMatcher
    ∧ (cleanupCanvas s).labeledDescriptors = s.labeledDescriptors
    ∧ (cleanupCanvas s).canvas = none := by
  unfold cleanupCanvas
  cases hc : s.canvas with
  | none => exact ⟨rfl, rfl, rfl, hc⟩
  | some c =>
    by_cases hlt : s.canvasPool.length < maxCanvasPoolSize
    · simp [hlt]
    · simp [hlt]

/-- The pool after releasing an active canvas: pushed when below
capacity, destroyed otherwise. -/
lemma cleanupCanvas_pool_of_some (s : FRState) (c : Nat) (hc : s.canvas = some c) :
    (cleanupCanvas s).canvasPool =
      (if s.canvasPool.length < maxCanvasPoolSize then c :: s.canvasPool
        else s.canvasPool) := by
  simp only [cleanupCanvas, hc]
  by_cases hlt : s.canvasPool.length < maxCanvasPoolSize
  · simp [hlt]
  · simp [hlt]

/-- C9 amended: when the stream release operation runs with an active
stream and every track stop succeeds, it stops all owned tracks, clears
the stream handle, returns the active surface to the pool (pushed when
the pool is below capacity 10, destroyed otherwise), disposes the cached
matcher and keeps the gallery cached; a subsequent matcher setup then
rebuilds the matcher from the still-cached gallery without re-fetching.
An individual track-stop failure instead propagates and aborts the
cleanup.  Releasing when no stream is active is a no-op. -/
theorem C9_release_stream_amended (stopRes : Nat → Except String Unit)
    (f : String → Option (List Desc)) (labels : List String)
    (st : FRState) (tracks : List Nat) (c : Nat)
    (hstream : st.videoStream = some tracks)
    (hok : ∀ t ∈ tracks, stopRes t = Except.ok ())
    (hcanvas : st.canvas = some c)
    (hgal : st.labeledDescriptors ≠ []) :
    stopWebcam stopRes st =
      Except.ok (disposeFaceMatcher (cleanupCanvas { st with videoStream := none }))
    ∧ (disposeFaceMatcher (cleanupCanvas { st with videoStream := none })).videoStream = none
    ∧ (disposeFaceMatcher (cleanupCanvas { st with videoStream := none })).faceMatcher = none
    ∧ (disposeFaceMatcher (cleanupCanvas { st with videoStream := none })).canvasPool
        = (if st.canvasPool.length < maxCanvasPoolSize then c :: st.canvasPool
            else st.canvasPool)
    ∧ (disposeFaceMatcher (cleanupCanvas { st with videoStream := none })).labeledDescriptors
        = st.labeledDescriptors
    ∧ (setupFaceMatcher f labels
        (disposeFaceMatcher (cleanupCanvas { st with videoStream := none }))).1.faceMatcher
        = some ⟨st.labeledDescriptors⟩
    ∧ (setupFaceMatcher f labels
        (disposeFaceMatcher (cleanupCanvas { st with videoStream := none }))).2 = []
    ∧ stopWebcam stopRes { st with videoStream := none } =
        Except.ok { st with videoStream := none } := by
  obtain ⟨hdm, hdv, hdp, hdc, hdg⟩ :=
    disposeFaceMatcher_fields (cleanupCanvas { st with videoStream := none })
  obtain ⟨hcv, hcm, hcg, hcc⟩ := cleanupCanvas_fields { st with videoStream := none }
  have hcleanpool : (cleanupCanvas { st with videoStream := none }).canvasPool =
      (if st.canvasPool.length < maxCanvasPoolSize then c :: st.canvasPool
        else st.canvasPool) :=
    cleanupCanvas_pool_of_some { st with videoStream := none } c hcanvas
  have hs2g : (disposeFaceMatcher (cleanupCanvas
      { st with videoStream := none })).labeledDescriptors = st.labeledDescriptors := by
    rw [hdg, hcg]
  refine ⟨?_, ?_, hdm, ?_, hs2g, ?_, ?_, ?_⟩
  · simp only [stopWebcam, hstream, mapM_stop_ok stopRes tracks hok]
  · rw [hdv, hcv]
  · rw [hdp, hcleanpool]
  · have hlen : ¬ (disposeFaceMatcher (cleanupCanvas
        { st with videoStream := none })).labeledDescriptors.length = 0 := by
      rw [hs2g]
      simpa [List.length_eq_zero] using hgal
    simp only [setupFaceMatcher, hdm, if_neg hlen]
    rw [hs2g]
  · have hlen : ¬ (disposeFaceMatcher (cleanupCanvas
        { st with videoStream := none })).labeledDescriptors.length = 0 := by
      rw [hs2g]
      simpa [List.length_eq_zero] using hgal
    simp only [setupFaceMatcher, hdm, if_neg hlen]
  · rfl

/-- Witness for C9's amended theorem: an active stream with two tracks
whose stops all succeed, an active canvas 5, an empty pool and a cached
"alice" gallery. -/
theorem C9_release_stream_amended_witness :
    let st : FRState := ⟨true, some [1, 2], some 5, [], 6, [("alice", [[1]])],
      some ⟨[("alice", [[1]])]⟩, [7], false, false⟩
    let stopRes : Nat → Except String Unit := fun _ => Except.ok ()
    let f : String → Option (List Desc) := fun _ => none
    (st.videoStream = some [1, 2]
      ∧ (∀ t ∈ ([1, 2] : List Nat), stopRes t = Except.ok ())
      ∧ st.canvas = some 5
      ∧ st.labeledDescriptors ≠ [])
    ∧ (stopWebcam stopRes st =
        Except.ok (disposeFaceMatcher (cleanupCanvas { st with videoStream := none }))
      ∧ (disposeFaceMatcher (cleanupCanvas { st with videoStream := none })).videoStream = none
      ∧ (disposeFaceMatcher (cleanupCanvas { st with videoStream := none })).faceMatcher = none
      ∧ (disposeFaceMatcher (cleanupCanvas { st with videoStream := none })).canvasPool
          = (if st.canvasPool.length < maxCanvasPoolSize then 5 :: st.canvasPool
              else st.canvasPool)
      ∧ (disposeFaceMatcher (cleanupCanvas { st with videoStream := none })).labeledDescriptors
          = st.labeledDescriptors
      ∧ (setupFaceMatcher f ["bob"]
          (disposeFaceMatcher (cleanupCanvas { st with videoStream := none }))).1.faceMatcher
          = some ⟨st.labeledDescriptors⟩
      ∧ (setupFaceMatcher f ["bob"]
          (disposeFaceMatcher (cleanupCanvas { st with videoStream := none }))).2 = []
      ∧ stopWebcam stopRes { st with videoStream := none } =
          Except.ok { st with videoStream := none }) :=
  ⟨⟨rfl, fun t ht => rfl, rfl, by simp⟩,
    C9_release_stream_amended (fun _ => Except.ok ()) (fun _ => none) ["bob"]
      ⟨true, some [1, 2], some 5, [], 6, [("alice", [[1]])],
        some ⟨[("alice", [[1]])]⟩, [7], false, false⟩
      [1, 2] 5 rfl (fun t ht => rfl) rfl (by simp)⟩

/-- When a stream is active and every track stop succeeds, releasing the
stream settles successfully in the cleaned-up state. -/
lemma stopWebcam_ok_state (stopRes : Nat → Except String Unit) (s : FRState)
    (tracks : List Nat) (hs : s.videoStream = some tracks)
    (hok : ∀ t ∈ tracks, stopRes t = Except.ok ()) :
    stopWebcam stopRes s =
      Except.ok (disposeFaceMatcher (cleanupCanvas { s with videoStream := none })) := by
  simp only [stopWebcam, hs, mapM_stop_ok stopRes tracks hok]

/-- Cleaning up the canvas touches neither the element reference, the
stop flag nor the pending-frame flag. -/
lemma cleanupCanvas_preserves (s : FRState) :
    (cleanupCanvas s).videoElement = s.videoElement
    ∧ (cleanupCanvas s).stopRequested = s.stopRequested
    ∧ (cleanupCanvas s).pendingFrame = s.pendingFrame := by
  unfold cleanupCanvas
  cases hc : s.canvas with
  | none => exact ⟨rfl, rfl, rfl⟩
  | some c =>
    by_cases hlt : s.canvasPool.length < maxCanvasPoolSize
    · simp [hlt]
    · simp [hlt]

/-- Disposing the matcher touches neither the element reference, the
stop flag nor the pending-frame flag. -/
lemma disposeFaceMatcher_preserves (s : FRState) :
    (disposeFaceMatcher s).videoElement = s.videoElement
    ∧ (disposeFaceMatcher s).stopRequested = s.stopRequested
    ∧ (disposeFaceMatcher s).pendingFrame = s.pendingFrame := by
  unfold disposeFaceMatcher
  cases hf : s.faceMatcher with
  | none => exact ⟨rfl, rfl, rfl⟩
  | some m => exact ⟨rfl, rfl, rfl⟩

/-- With the canvas gone, an iteration never schedules a further one:
either the guard returns, the detection rejection escapes, or the
render step throws on the null canvas — in every case line 151 is never
reached and the canvas stays gone. -/
lemma processVideoFrames_no_resched (det : Except String (List Detection))
    (s : FRState) (hc : s.canvas = none) :
    (processVideoFrames det s).1.pendingFrame = false
    ∧ (processVideoFrames det s).1.canvas = none := by
  unfold processVideoFrames
  by_cases hve : s.videoElement = false
  · simp [hve, hc]
  · cases det with
    | error e => simp [hve, hc]
    | ok ds => simp [hve, hc]

/-- With the element present but the canvas nulled, a successful
detection still crashes the iteration: `updateCanvas`'s first statement
dereferences the null canvas. -/
lemma processVideoFrames_throws_of_no_canvas (ds : List Detection) (s : FRState)
    (hve : s.videoElement = true) (hc : s.canvas = none) :
    processVideoFrames (Except.ok ds) s =
      ({ s with pendingFrame := false }, some "TypeError: this.canvas is null") := by
  unfold processVideoFrames
  simp [hve, hc]

/-- Once no frame callback is pending, no frame event ever runs. -/
lemma runFrames_of_not_pending (dets : List (Except String (List Detection)))
    (s : FRState) (h : s.pendingFrame = false) :
    runFrames s dets = s := by
  cases dets with
  | nil => rfl
  | cons det rest => simp [runFrames, h]

/-- C2: once a stop is requested while the frame loop is running, at
most the one iteration already in flight runs, and no further iteration
is ever scheduled after the stop request is recorded.
`stopProcessing`'s listener removal is a no-op, but its `stopWebcam`
cleanup — queued as a microtask during the stop call, hence run before
the in-flight iteration can resume — nulls the canvas, so the resumed
iteration throws inside `updateCanvas` (line 156) before the
`requestAnimationFrame` on line 151: whatever its detection outcome,
`pendingFrame` is false afterwards, it never renders (the `TypeError`
escapes instead), and every later frame event finds no callback
scheduled. -/
theorem C2_stop_cancels_frame_loop (removedId : Nat)
    (stopRes : Nat → Except String Unit) (st st' : FRState) (tracks : List Nat)
    (det : Except String (List Detection)) (ds : List Detection)
    (rest : List (Except String (List Detection)))
    (hstream : st.videoStream = some tracks)
    (hok : ∀ t ∈ tracks, stopRes t = Except.ok ())
    (hstop : stopProcessing removedId stopRes st = Except.ok st') :
    st'.stopRequested = true
    ∧ st'.canvas = none
    ∧ (processVideoFrames det st').1.pendingFrame = false
    ∧ (st'.videoElement = true →
        (processVideoFrames (Except.ok ds) st').2 = some "TypeError: this.canvas is null")
    ∧ (st'.pendingFrame = true →
        runFrames st' (det :: rest) = (processVideoFrames det st').1)
    ∧ (st'.pendingFrame = false → runFrames st' (det :: rest) = st') := by
  unfold stopProcessing at hstop
  rw [stopWebcam_ok_state stopRes
      { st with playListeners := st.playListeners.filter (· ≠ removedId), stopRequested := true }
      tracks hstream hok] at hstop
  injection hstop with hst'
  have hcanvas : st'.canvas = none := by
    rw [← hst', (disposeFaceMatcher_fields _).2.2.2.1, (cleanupCanvas_fields _).2.2.2]
  have hsr : st'.stopRequested = true := by
    rw [← hst', (disposeFaceMatcher_preserves _).2.1, (cleanupCanvas_preserves _).2.1]
  refine ⟨hsr, hcanvas, (processVideoFrames_no_resched det _ hcanvas).1, ?_, ?_, ?_⟩
  · intro hve
    rw [processVideoFrames_throws_of_no_canvas ds _ hve hcanvas]
  · intro hpend
    unfold runFrames
    rw [if_pos hpend,
      runFrames_of_not_pending rest _ (processVideoFrames_no_resched det _ hcanvas).1]
  · intro hpend
    unfold runFrames
    rw [if_neg (by simp [hpend])]

/-- Witness for C2: a running instance (registered play listener 7, one
track, a frame in flight) stopped via a fresh closure identity 8;
after the stop the in-flight iteration schedules nothing, a successful
detection crashes on the nulled canvas, and later frame events run
nothing further. -/
theorem C2_stop_cancels_frame_loop_witness :
    let st : FRState := ⟨true, some [1], some 0, [], 1, [], none, [7], true, false⟩
    let st2 : FRState := ⟨true, none, none, [0], 1, [], none, [7], true, true⟩
    let stopRes : Nat → Except String Unit := fun _ => Except.ok ()
    (st.videoStream = some [1]
      ∧ (∀ t ∈ ([1] : List Nat), stopRes t = Except.ok ())
      ∧ stopProcessing 8 stopRes st = Except.ok st2)
    ∧ (st2.stopRequested = true
      ∧ st2.canvas = none
      ∧ (processVideoFrames (Except.ok []) st2).1.pendingFrame = false
      ∧ (st2.videoElement = true →
          (processVideoFrames (Except.ok ([] : List Detection)) st2).2 =
            some "TypeError: this.canvas is null")
      ∧ (st2.pendingFrame = true →
          runFrames st2 (Except.ok [] :: [Except.ok []]) =
            (processVideoFrames (Except.ok []) st2).1)
      ∧ (st2.pendingFrame = false →
          runFrames st2 (Except.ok [] :: [Except.ok []]) = st2)) :=
  ⟨⟨rfl, fun _ _ => rfl, rfl⟩,
    C2_stop_cancels_frame_loop 8 (fun _ => Except.ok ())
      ⟨true, some [1], some 0, [], 1, [], none, [7], true, false⟩
      ⟨true, none, none, [0], 1, [], none, [7], true, true⟩
      [1] (Except.ok []) [] [Except.ok []] rfl (fun _ _ => rfl) rfl⟩

/-- C3 (code bug): a failure inside one frame iteration is not caught —
`processVideoFrames` has no try/catch, so the rejection escapes as an
uncaught error and the `requestAnimationFrame` call that would schedule
the next iteration is never reached (`pendingFrame = false`): a single
failing frame terminates the loop, contradicting the claim that the
failure is caught, logged and the loop rescheduled. -/
theorem C3_frame_error_terminates_loop :
    processVideoFrames (Except.error "detection failed")
      ⟨true, some [1], some 0, [], 1, [], none, [7], true, false⟩ =
      (⟨true, some [1], some 0, [], 1, [], none, [7], false, false⟩,
        some "detection failed") := by
  rfl
